import Mathlib

/-!
Shallow embedding of opmon's configuration resolution engine
(`src/opmon/config.py`, with value types from `src/opmon/__init__.py`,
statistic names from `src/opmon/statistic.py`, and the experiment record
from `src/opmon/experimenter.py`).

Conventions of the embedding:
* Python `dict`s are association lists (`Dict α`) with first-match lookup;
  `dict.update` is `dictUpdate`, which mirrors CPython semantics on
  unique-key dictionaries (existing keys keep their position and take the
  other dict's value, new keys are appended in order).
* Python exceptions are `Except PyError`; `ValueError` and the bare
  `Exception` raised by the double-resolve guard are distinguished.
* Python truthiness in `x or y` expressions is modelled per field type
  (`pyOrStr` for optional strings where `""` is falsy, `pyOrList` for
  optional lists where `[]` is falsy, and so on).
* Mutation of `self` is explicit state passing: `MonitoringSpec.resolve`
  returns the post-call spec together with the result, and the `merge`
  methods return the updated left-hand spec.
* Python `set` comprehensions over reference names are modelled with
  `dedupFirst` (first-occurrence order); CPython's set iteration order is
  unspecified, and no verified property depends on the order chosen.
* Opaque payload types are abstracted: statistic parameter values and
  alert `parameters` entries (typed `Any` in the source) are `Int`;
  datetimes are carried as their `"YYYY-MM-DD"` strings (the attrs
  validator guarantees well-formedness at construction time).
-/

namespace Opmon

/-- A Python `dict` keyed by strings, as an association list. -/
abbrev Dict (α : Type) := List (String × α)

/-- First-match lookup, `d[k]`/`k in d` semantics for unique-key dicts. -/
def dlookup {α : Type} : Dict α → String → Option α
  | [], _ => none
  | kv :: rest, k => if kv.1 = k then some kv.2 else dlookup rest k

/-- `k in d` for a Python dict. -/
def dcontains {α : Type} (d : Dict α) (k : String) : Bool :=
  (dlookup d k).isSome

/-- `self.update(other)` on Python dicts: existing keys keep their position
but take `other`'s value; keys only in `other` are appended in order. -/
def dictUpdate {α : Type} (self other : Dict α) : Dict α :=
  (self.map fun kv =>
    match dlookup other kv.1 with
    | some v => (kv.1, v)
    | none => kv)
  ++ other.filter fun kv => (dlookup self kv.1).isNone

/-- `d[k] = v` for a key already present: replace the value in place. -/
def dictSet {α : Type} (d : Dict α) (k : String) (v : α) : Dict α :=
  d.map fun kv => if kv.1 = k then (kv.1, v) else kv

/-- `d[k] = v` on a Python dict: overwrite in place if present, else append. -/
def pyDictSetItem {α : Type} (d : Dict α) (k : String) (v : α) : Dict α :=
  if dcontains d k then dictSet d k v else d ++ [(k, v)]

/-- ASCII lower-casing of one character (`str.lower` on the identifier
keys used in configuration). -/
def pyLowerChar (c : Char) : Char :=
  if 65 ≤ c.toNat ∧ c.toNat ≤ 90 then Char.ofNat (c.toNat + 32) else c

/-- `k.lower()` on ASCII identifier keys. -/
def pyLower (s : String) : String := ⟨s.data.map pyLowerChar⟩

/-- `dict((k.lower(), v) for k, v in d.items())`: rebuild the dict with
lower-cased keys, later entries winning on collision. -/
def pyLowerKeys {α : Type} (d : Dict α) : Dict α :=
  d.foldl (fun acc kv => pyDictSetItem acc (pyLower kv.1) kv.2) []

/-- De-duplicate keeping the first occurrence of each element; models the
`{x for x in l}` set comprehensions (whose iteration order CPython leaves
unspecified). -/
def dedupFirst (l : List String) : List String :=
  l.foldl (fun acc x => if acc.contains x then acc else acc ++ [x]) []

/-- `a or b` where `a` is an `Option α`: `some x <|> b`, for field types
whose values are always truthy in Python (attrs instances, enum members). -/
def pyOrOpt {α : Type} (a b : Option α) : Option α :=
  match a with
  | some x => some x
  | none => b

/-- `a or b` on `Optional[str]` values: `""` is falsy. -/
def pyOrStr (a b : Option String) : Option String :=
  match a with
  | some s => if s = "" then b else some s
  | none => b

/-- `a or b` where `a : Optional[str]` and `b : str` (default fallback). -/
def pyOrStrD (a : Option String) (b : String) : String :=
  match a with
  | some s => if s = "" then b else s
  | none => b

/-- `a or b` on optional lists: `None` and `[]` are falsy. -/
def pyOrList {α : Type} (a b : Option (List α)) : Option (List α) :=
  match a with
  | some (x :: xs) => some (x :: xs)
  | _ => b

/-- `a or b` on `Optional[int]` values: `0` is falsy. -/
def pyOrInt (a b : Option Int) : Option Int :=
  match a with
  | some n => if n = 0 then b else some n
  | none => b

/-- `a or b` on `Optional[float]` values (modelled as `Rat`): `0` is falsy. -/
def pyOrRat (a b : Option Rat) : Option Rat :=
  match a with
  | some q => if q = 0 then b else some q
  | none => b

/-- Truthiness of an optional list: `None` and `[]` are falsy. -/
def pyTruthyList {α : Type} (a : Option (List α)) : Bool :=
  match a with
  | some (_ :: _) => true
  | _ => false

/-- Whether an `Except` result is a success (no exception raised). -/
def exceptIsOk {ε α : Type} : Except ε α → Bool
  | .ok _ => true
  | .error _ => false

/-- Python exceptions raised by the configuration engine. -/
inductive PyError where
  /-- `ValueError(msg)` -/
  | valueError (msg : String)
  /-- the bare `Exception(msg)` raised by the double-resolve guard -/
  | exception (msg : String)
deriving DecidableEq, Repr

deriving instance DecidableEq for Except

/-- `opmon.Channel` (src/opmon/__init__.py). -/
inductive Channel where
  | nightly
  | beta
  | release
deriving DecidableEq, Repr

/-- `opmon.MonitoringPeriod` (src/opmon/__init__.py). -/
inductive MonitoringPeriod where
  | build_id
  | day
deriving DecidableEq, Repr

/-- `opmon.AlertType` (src/opmon/__init__.py). -/
inductive AlertType where
  | ci_overlap
  | threshold
  | avg_diff
deriving DecidableEq, Repr

/-- `str(AlertType.X)` as interpolated into validation error messages. -/
def AlertType.pyStr : AlertType → String
  | .ci_overlap => "AlertType.CI_OVERLAP"
  | .threshold => "AlertType.THRESHOLD"
  | .avg_diff => "AlertType.AVG_DIFF"

/-- `opmon.DataSource` (src/opmon/__init__.py). -/
structure DataSource where
  name : String
  from_expression : String
  submission_date_column : String
  build_id_column : String
  client_id_column : String
deriving DecidableEq, Repr

/-- `opmon.Metric` (src/opmon/__init__.py). -/
structure Metric where
  name : String
  data_source : DataSource
  select_expression : String
  friendly_name : Option String := none
  description : Option String := none
  category : Option String := none
  type : Option String := none
deriving DecidableEq, Repr

/-- `opmon.Dimension` (src/opmon/__init__.py). -/
structure Dimension where
  name : String
  data_source : DataSource
  select_expression : String
  friendly_name : Option String := none
  description : Option String := none
deriving DecidableEq, Repr

/-- Parameters passed to a statistic's `from_dict` (`Dict[str, Any]`); the
parameter values, never inspected by the engine, are abstracted as `Int`. -/
abbrev StatParams := Dict Int

/-- An instantiated statistic: `Statistic.from_dict(params)` on the subclass
registered under `name` (src/opmon/statistic.py). -/
structure Statistic where
  name : String
  params : StatParams
deriving DecidableEq, Repr

/-- The snake-cased names of the `Statistic` subclasses defined in
src/opmon/statistic.py, in definition order: `Statistic.__subclasses__()`. -/
def statisticNames : List String :=
  ["count", "sum", "mean", "quantile", "percentile"]

/-- `opmon.config.Summary`: a metric with a statistical treatment. -/
structure Summary where
  metric : Metric
  statistic : Statistic
deriving DecidableEq, Repr

/-- `opmon.Alert` (src/opmon/__init__.py); `parameters` entries (`Any` in
the source) are abstracted as `Int`, `max_relative_change` as `Rat`. -/
structure Alert where
  name : String
  type : AlertType
  metrics : List Summary
  friendly_name : Option String := none
  description : Option String := none
  parameters : Option (List Int) := some []
  min : Option (List Int) := none
  max : Option (List Int) := none
  window_size : Option Int := none
  max_relative_change : Option Rat := none
  statistics : Option (List String) := none
deriving DecidableEq, Repr

/-- `opmon.experimenter.Branch`. -/
structure Branch where
  slug : String
  ratio : Int
deriving DecidableEq, Repr

/-- `opmon.experimenter.Experiment`, restricted to the fields consumed by
the configuration engine; datetimes are carried as `"YYYY-MM-DD"` strings
(`strftime("%Y-%m-%d")` is then the identity). -/
structure Experiment where
  name : Option String := none
  branches : List Branch := []
  start_date : Option String := none
  end_date : Option String := none
  reference_branch : Option String := none
  boolean_pref : Option String := none
  channel : Option Channel := none
  is_rollout : Bool := false
deriving DecidableEq, Repr

/-- `opmon.config.DataSourceDefinition`. -/
structure DataSourceDefinition where
  name : String
  from_expression : String
  submission_date_column : String := "submission_date"
  build_id_column : String := "SAFE.SUBSTR(application.build_id, 0, 8)"
  client_id_column : String := "client_id"
deriving DecidableEq, Repr

/-- Input record for `DataSourcesSpec.from_dict`: the parsed table value
for one data source, whose `name` is implicit in configuration. -/
structure DataSourceFields where
  from_expression : String
  submission_date_column : String := "submission_date"
  build_id_column : String := "SAFE.SUBSTR(application.build_id, 0, 8)"
  client_id_column : String := "client_id"
deriving DecidableEq, Repr

/-- `_converter.structure({"name": k, **v}, DataSourceDefinition)`. -/
def mkDataSourceDefinition (k : String) (v : DataSourceFields) :
    DataSourceDefinition :=
  { name := k
    from_expression := v.from_expression
    submission_date_column := v.submission_date_column
    build_id_column := v.build_id_column
    client_id_column := v.client_id_column }

/-- `opmon.config.DataSourcesSpec`. -/
structure DataSourcesSpec where
  definitions : Dict DataSourceDefinition := []
deriving DecidableEq, Repr

/-- `DataSourcesSpec.from_dict`; note the source does NOT lower-case the
keys of `d` here, unlike the other three containers. -/
def DataSourcesSpec.from_dict (d : Dict DataSourceFields) : DataSourcesSpec :=
  ⟨d.map fun kv => (kv.1, mkDataSourceDefinition kv.1 kv.2)⟩

/-- `DataSourcesSpec.merge`: `self.definitions.update(other.definitions)`. -/
def DataSourcesSpec.merge (self other : DataSourcesSpec) : DataSourcesSpec :=
  ⟨dictUpdate self.definitions other.definitions⟩

/-- `opmon.config.DataSourceReference`. -/
structure DataSourceReference where
  name : String
deriving DecidableEq, Repr

/-- `opmon.config.MetricDefinition`. -/
structure MetricDefinition where
  name : String
  select_expression : String
  data_source : DataSourceReference
  friendly_name : Option String := none
  description : Option String := none
  category : Option String := none
  type : Option String := some "scalar"
  statistics : Option (Dict StatParams) := some [("percentile", [])]
deriving DecidableEq, Repr

/-- Input record for `MetricsSpec.from_dict` (one metric's table value). -/
structure MetricFields where
  select_expression : String
  data_source : DataSourceReference
  friendly_name : Option String := none
  description : Option String := none
  category : Option String := none
  type : Option String := some "scalar"
  statistics : Option (Dict StatParams) := some [("percentile", [])]
deriving DecidableEq, Repr

/-- `_converter.structure({"name": k, **v}, MetricDefinition)`. -/
def mkMetricDefinition (k : String) (v : MetricFields) : MetricDefinition :=
  { name := k
    select_expression := v.select_expression
    data_source := v.data_source
    friendly_name := v.friendly_name
    description := v.description
    category := v.category
    type := v.type
    statistics := v.statistics }

/-- `opmon.config.MetricsSpec`. -/
structure MetricsSpec where
  definitions : Dict MetricDefinition := []
deriving DecidableEq, Repr

/-- `MetricsSpec.from_dict`: lower-case the keys, inject each key as the
definition's `name`. -/
def MetricsSpec.from_dict (d : Dict MetricFields) : MetricsSpec :=
  ⟨(pyLowerKeys d).map fun kv => (kv.1, mkMetricDefinition kv.1 kv.2)⟩

/-- `MetricsSpec.merge`: `self.definitions.update(other.definitions)`. -/
def MetricsSpec.merge (self other : MetricsSpec) : MetricsSpec :=
  ⟨dictUpdate self.definitions other.definitions⟩

/-- `opmon.config.MetricReference`. -/
structure MetricReference where
  name : String
deriving DecidableEq, Repr

/-- `opmon.config.DimensionDefinition`. -/
structure DimensionDefinition where
  name : String
  select_expression : String
  data_source : DataSourceReference
  friendly_name : Option String := none
  description : Option String := none
deriving DecidableEq, Repr

/-- Input record for `DimensionsSpec.from_dict`. -/
structure DimensionFields where
  select_expression : String
  data_source : DataSourceReference
  friendly_name : Option String := none
  description : Option String := none
deriving DecidableEq, Repr

/-- `_converter.structure({"name": k, **v}, DimensionDefinition)`. -/
def mkDimensionDefinition (k : String) (v : DimensionFields) :
    DimensionDefinition :=
  { name := k
    select_expression := v.select_expression
    data_source := v.data_source
    friendly_name := v.friendly_name
    description := v.description }

/-- `opmon.config.DimensionsSpec`. -/
structure DimensionsSpec where
  definitions : Dict DimensionDefinition := []
deriving DecidableEq, Repr

/-- `DimensionsSpec.from_dict`: lower-case keys, inject names. -/
def DimensionsSpec.from_dict (d : Dict DimensionFields) : DimensionsSpec :=
  ⟨(pyLowerKeys d).map fun kv => (kv.1, mkDimensionDefinition kv.1 kv.2)⟩

/-- `DimensionsSpec.merge`: `self.definitions.update(other.definitions)`. -/
def DimensionsSpec.merge (self other : DimensionsSpec) : DimensionsSpec :=
  ⟨dictUpdate self.definitions other.definitions⟩

/-- `opmon.config.DimensionReference`. -/
structure DimensionReference where
  name : String
deriving DecidableEq, Repr

/-- `opmon.config.AlertDefinition` (fields only; the `__attrs_post_init__`
validation is `AlertDefinition.validate` below). `parameters` entries are
abstracted as `Int`, `max_relative_change` as `Rat`. -/
structure AlertDefinition where
  name : String
  type : AlertType
  metrics : List MetricReference
  friendly_name : Option String := none
  description : Option String := none
  parameters : Option (List Int) := none
  min : Option (List Int) := none
  max : Option (List Int) := none
  window_size : Option Int := none
  max_relative_change : Option Rat := none
  statistics : Option (List String) := none
deriving DecidableEq, Repr

/-- `f"For alert of type {str(self.type)}, the parameter {field} must not
be set"`. -/
def mustNotBeSetMsg (t : AlertType) (fieldName : String) : String :=
  "For alert of type " ++ t.pyStr ++ ", the parameter " ++ fieldName
    ++ " must not be set"

/-- `AlertDefinition.__attrs_post_init__`: type-dependent validation, with
the checks performed in source order (the `none_fields` loop runs last). -/
def AlertDefinition.validate (a : AlertDefinition) : Except PyError Unit :=
  match a.type with
  | .ci_overlap =>
    -- none_fields = ["min", "max", "window_size", "max_relative_change"]
    if a.min.isSome then .error (.valueError (mustNotBeSetMsg a.type "min"))
    else if a.max.isSome then .error (.valueError (mustNotBeSetMsg a.type "max"))
    else if a.window_size.isSome then
      .error (.valueError (mustNotBeSetMsg a.type "window_size"))
    else if a.max_relative_change.isSome then
      .error (.valueError (mustNotBeSetMsg a.type "max_relative_change"))
    else .ok ()
  | .threshold =>
    if a.min.isNone && a.max.isNone then
      .error (.valueError
        "Either 'max' or 'min' needs to be set when defining a threshold alert")
    -- `self.min and self.parameters and len(self.min) != len(self.parameters)`
    else if pyTruthyList a.min && pyTruthyList a.parameters
        && decide ((a.min.getD []).length ≠ (a.parameters.getD []).length) then
      .error (.valueError
        ("Number of 'min' thresholds not matching number of parameters to monitor. "
          ++ "A 'min' threshold needs to be specified for each percentile."))
    else if pyTruthyList a.max && pyTruthyList a.parameters
        && decide ((a.max.getD []).length ≠ (a.parameters.getD []).length) then
      .error (.valueError
        ("Number of 'max' thresholds not matching number of parameters to monitor. "
          ++ "A 'max' threshold needs to be specified for each percentile."))
    -- none_fields = ["window_size", "max_relative_change"]
    else if a.window_size.isSome then
      .error (.valueError (mustNotBeSetMsg a.type "window_size"))
    else if a.max_relative_change.isSome then
      .error (.valueError (mustNotBeSetMsg a.type "max_relative_change"))
    else .ok ()
  | .avg_diff =>
    if a.window_size.isNone then
      .error (.valueError
        "'window_size' needs to be specified when using avg_diff alert")
    else if a.max_relative_change.isNone then
      .error (.valueError
        "'max_relative_change' to be specified when using avg_diff alert")
    -- none_fields = ["min", "max"]
    else if a.min.isSome then
      .error (.valueError (mustNotBeSetMsg a.type "min"))
    else if a.max.isSome then
      .error (.valueError (mustNotBeSetMsg a.type "max"))
    else .ok ()

/-- Input record for `AlertsSpec.from_dict`. -/
structure AlertFields where
  type : AlertType
  metrics : List MetricReference
  friendly_name : Option String := none
  description : Option String := none
  parameters : Option (List Int) := none
  min : Option (List Int) := none
  max : Option (List Int) := none
  window_size : Option Int := none
  max_relative_change : Option Rat := none
  statistics : Option (List String) := none
deriving DecidableEq, Repr

/-- `_converter.structure({"name": k, **v}, AlertDefinition)`: construction
runs `__attrs_post_init__`, so it can raise `ValueError`. -/
def mkAlertDefinition (k : String) (v : AlertFields) :
    Except PyError AlertDefinition :=
  let a : AlertDefinition :=
    { name := k
      type := v.type
      metrics := v.metrics
      friendly_name := v.friendly_name
      description := v.description
      parameters := v.parameters
      min := v.min
      max := v.max
      window_size := v.window_size
      max_relative_change := v.max_relative_change
      statistics := v.statistics }
  match a.validate with
  | .ok _ => .ok a
  | .error e => .error e

/-- `opmon.config.AlertsSpec`. -/
structure AlertsSpec where
  definitions : Dict AlertDefinition := []
deriving DecidableEq, Repr

/-- Helper for `AlertsSpec.from_dict`: construct the definitions in order,
propagating the first construction error. -/
def mkAlertDefinitions : Dict AlertFields → Except PyError (Dict AlertDefinition)
  | [] => .ok []
  | kv :: rest =>
    match mkAlertDefinition kv.1 kv.2 with
    | .error e => .error e
    | .ok a =>
      match mkAlertDefinitions rest with
      | .error e => .error e
      | .ok tail => .ok ((kv.1, a) :: tail)

/-- `AlertsSpec.from_dict`: lower-case keys, inject names; constructing an
`AlertDefinition` validates it and can raise. -/
def AlertsSpec.from_dict (d : Dict AlertFields) : Except PyError AlertsSpec :=
  match mkAlertDefinitions (pyLowerKeys d) with
  | .ok defs => .ok ⟨defs⟩
  | .error e => .error e

/-- The body of `AlertsSpec.merge`'s per-field loop for one alert name
present in both specs: `metrics` lists are concatenated onto `self`'s, and
every other field takes `other`'s value if truthy, else keeps `self`'s
(`setattr(self_def, key, getattr(other_def, key) or getattr(self_def, key))`,
iterating all of `attr.fields_dict`, `name` and `type` included; enum
members are always truthy). -/
def AlertDefinition.fieldMerge (selfDef otherDef : AlertDefinition) :
    AlertDefinition :=
  { name := if otherDef.name = "" then selfDef.name else otherDef.name
    type := otherDef.type
    metrics := selfDef.metrics ++ otherDef.metrics
    friendly_name := pyOrStr otherDef.friendly_name selfDef.friendly_name
    description := pyOrStr otherDef.description selfDef.description
    parameters := pyOrList otherDef.parameters selfDef.parameters
    min := pyOrList otherDef.min selfDef.min
    max := pyOrList otherDef.max selfDef.max
    window_size := pyOrInt otherDef.window_size selfDef.window_size
    max_relative_change :=
      pyOrRat otherDef.max_relative_change selfDef.max_relative_change
    statistics := pyOrList otherDef.statistics selfDef.statistics }

/-- `AlertsSpec.merge`: the per-alert loop field-merges (or inserts) each of
`other`'s definitions into `self`, and then the trailing
`self.definitions.update(other.definitions)` runs on the result. -/
def AlertsSpec.merge (self other : AlertsSpec) : AlertsSpec :=
  let stepped := other.definitions.foldl
    (fun acc kv =>
      match dlookup acc kv.1 with
      | some existing => dictSet acc kv.1 (existing.fieldMerge kv.2)
      | none => acc ++ [kv])
    self.definitions
  ⟨dictUpdate stepped other.definitions⟩

/-- `opmon.config.AlertReference`. -/
structure AlertReference where
  name : String
deriving DecidableEq, Repr

/-- `opmon.config.PopulationConfiguration`. -/
structure PopulationConfiguration where
  data_source : Option DataSource := none
  boolean_pref : Option String := none
  channel : Option Channel := none
  branches : List String := []
  monitor_entire_population : Bool := false
  group_by_dimension : Option Dimension := none
deriving DecidableEq, Repr

/-- `opmon.config.PopulationSpec`. -/
structure PopulationSpec where
  data_source : Option DataSourceReference := none
  boolean_pref : Option String := none
  channel : Option Channel := none
  branches : Option (List String) := none
  dimensions : List DimensionReference := []
  monitor_entire_population : Bool := false
  group_by_dimension : Option DimensionReference := none
deriving DecidableEq, Repr

/-- `f"{self.group_by_dimension} not listed as dimension, but used for
grouping"`; the f-string renders the attrs repr of the reference. -/
def groupByMsg (g : DimensionReference) : String :=
  "DimensionReference(name='" ++ g.name
    ++ "') not listed as dimension, but used for grouping"

/-- The guard at the top of `PopulationSpec.resolve`: a set
`group_by_dimension` must be contained (by `__eq__`, i.e. by name) in
`dimensions`. -/
def PopulationSpec.groupByCheck (p : PopulationSpec) : Except PyError Unit :=
  match p.group_by_dimension with
  | some g =>
    if g ∈ p.dimensions then .ok ()
    else .error (.valueError (groupByMsg g))
  | none => .ok ()

/-- The `boolean_pref=` argument of the returned configuration:
`self.boolean_pref or (experiment.boolean_pref if experiment and not
experiment.is_rollout else None)`. -/
def PopulationSpec.resolvedBooleanPref (p : PopulationSpec)
    (experiment : Option Experiment) : Option String :=
  pyOrStr p.boolean_pref
    (match experiment with
      | some e => if e.is_rollout then none else e.boolean_pref
      | none => none)

/-- The `channel=` argument:
`self.channel or (experiment.channel if experiment else None)`. -/
def PopulationSpec.resolvedChannel (p : PopulationSpec)
    (experiment : Option Experiment) : Option Channel :=
  pyOrOpt p.channel
    (match experiment with
      | some e => e.channel
      | none => none)

/-- The `branches=` argument: `self.branches if self.branches is not None
else ([branch.slug for branch in experiment.branches] if experiment and
self.boolean_pref is None and not experiment.is_rollout else [])`. -/
def PopulationSpec.resolvedBranches (p : PopulationSpec)
    (experiment : Option Experiment) : List String :=
  match p.branches with
  | some bs => bs
  | none =>
    match experiment with
    | some e =>
      if p.boolean_pref = none && !e.is_rollout then
        e.branches.map Branch.slug
      else []
    | none => []

/-- `opmon.config.ProjectConfiguration`; dates carried as strings. -/
structure ProjectConfiguration where
  reference_branch : String := "control"
  name : Option String := none
  xaxis : MonitoringPeriod := .day
  start_date : Option String := none
  end_date : Option String := none
  population : PopulationConfiguration := {}
  compact_visualization : Bool := false
  skip_default_metrics : Bool := false
  skip : Bool := false
  platform : Option String := none
deriving DecidableEq, Repr

/-- `opmon.config.ProjectSpec`. -/
structure ProjectSpec where
  name : Option String := none
  platform : Option String := none
  xaxis : Option MonitoringPeriod := none
  start_date : Option String := none
  end_date : Option String := none
  metrics : List MetricReference := []
  alerts : List AlertReference := []
  reference_branch : Option String := none
  population : PopulationSpec := {}
  compact_visualization : Bool := false
  skip_default_metrics : Bool := false
  skip : Bool := false
deriving DecidableEq, Repr

/-- `_parse_date`: `None`/`""` resolve to `None`; otherwise the (already
validated) `"YYYY-MM-DD"` string is kept as the date value. -/
def parseDate (s : Option String) : Option String :=
  match s with
  | some d => if d = "" then none else some d
  | none => none

/-- `PopulationSpec.merge(other)`: `branches` keeps `self`'s value when it
is not `None` (self wins), `dimensions` concatenate, every other field is
`getattr(other, key) or getattr(self, key)` (other wins if truthy). -/
def PopulationSpec.merge (self other : PopulationSpec) : PopulationSpec :=
  { data_source := pyOrOpt other.data_source self.data_source
    boolean_pref := pyOrStr other.boolean_pref self.boolean_pref
    channel := pyOrOpt other.channel self.channel
    branches :=
      match self.branches with
      | some bs => some bs
      | none => other.branches
    dimensions := self.dimensions ++ other.dimensions
    monitor_entire_population :=
      other.monitor_entire_population || self.monitor_entire_population
    group_by_dimension :=
      pyOrOpt other.group_by_dimension self.group_by_dimension }

/-- `ProjectSpec.merge(other)`. -/
def ProjectSpec.merge (self other : ProjectSpec) : ProjectSpec :=
  { name := pyOrStr other.name self.name
    platform := pyOrStr other.platform self.platform
    xaxis := pyOrOpt other.xaxis self.xaxis
    start_date := pyOrStr other.start_date self.start_date
    end_date := pyOrStr other.end_date self.end_date
    metrics := self.metrics ++ other.metrics
    alerts := self.alerts ++ other.alerts
    reference_branch := pyOrStr other.reference_branch self.reference_branch
    population := self.population.merge other.population
    compact_visualization :=
      other.compact_visualization || self.compact_visualization
    skip_default_metrics :=
      other.skip_default_metrics || self.skip_default_metrics
    skip := other.skip || self.skip }

/-- `opmon.config.MonitoringConfiguration`. -/
structure MonitoringConfiguration where
  project : Option ProjectConfiguration := none
  metrics : List Summary := []
  dimensions : List Dimension := []
  alerts : List Alert := []
deriving DecidableEq, Repr

/-- `opmon.config.MonitoringSpec`; `resolved` is the private `_resolved`
flag. -/
structure MonitoringSpec where
  project : ProjectSpec := {}
  data_sources : DataSourcesSpec := {}
  metrics : MetricsSpec := {}
  dimensions : DimensionsSpec := {}
  alerts : AlertsSpec := {}
  resolved : Bool := false
deriving DecidableEq, Repr

/-- `DataSourceDefinition.resolve(spec)`: copy into a `DataSource`. -/
def DataSourceDefinition.resolve (d : DataSourceDefinition) : DataSource :=
  { name := d.name
    from_expression := d.from_expression
    submission_date_column := d.submission_date_column
    build_id_column := d.build_id_column
    client_id_column := d.client_id_column }

/-- `DataSourceReference.resolve(spec)`. -/
def DataSourceReference.resolve (r : DataSourceReference)
    (spec : MonitoringSpec) : Except PyError DataSource :=
  match dlookup spec.data_sources.definitions r.name with
  | some d => .ok d.resolve
  | none =>
    .error (.valueError ("DataSource " ++ r.name ++ " has not been defined."))

/-- `statistic.name() == statistic_name` over `Statistic.__subclasses__()`. -/
def statisticExists (statName : String) : Bool :=
  statisticNames.contains statName

/-- The loop body of `MetricDefinition.resolve`: one `Summary` per
`(statistic_name, params)` pair, resolving the data source and checking the
statistic name on each iteration. -/
def MetricDefinition.resolveStats (d : MetricDefinition)
    (spec : MonitoringSpec) :
    Dict StatParams → Except PyError (List Summary)
  | [] => .ok []
  | (statName, params) :: rest =>
    match d.data_source.resolve spec with
    | .error e => .error e
    | .ok ds =>
      let metric : Metric :=
        { name := d.name
          data_source := ds
          select_expression := d.select_expression
          friendly_name := d.friendly_name
          description := d.description
          category := d.category
          type := some (match d.type with
            | some t => if t = "" then "scalar" else t
            | none => "scalar") }
      if statisticExists statName then
        match d.resolveStats spec rest with
        | .error e => .error e
        | .ok tail =>
          .ok ({ metric := metric
                 statistic := { name := statName, params := params } } :: tail)
      else
        .error (.valueError ("Statistic '" ++ statName ++ "' does not exist."))

/-- `MetricDefinition.resolve(spec)`: `if self.statistics:` (both `None`
and `{}` are falsy) guards the loop. -/
def MetricDefinition.resolve (d : MetricDefinition) (spec : MonitoringSpec) :
    Except PyError (List Summary) :=
  match d.statistics with
  | some (kv :: rest) => d.resolveStats spec (kv :: rest)
  | _ => .ok []

/-- `DimensionDefinition.resolve(spec)`. -/
def DimensionDefinition.resolve (d : DimensionDefinition)
    (spec : MonitoringSpec) : Except PyError Dimension :=
  match d.data_source.resolve spec with
  | .error e => .error e
  | .ok ds =>
    .ok { name := d.name
          data_source := ds
          select_expression := d.select_expression
          friendly_name := d.friendly_name
          description := d.description }

/-- `DimensionReference.resolve(spec)`. -/
def DimensionReference.resolve (r : DimensionReference)
    (spec : MonitoringSpec) : Except PyError Dimension :=
  match dlookup spec.dimensions.definitions r.name with
  | some d => d.resolve spec
  | none =>
    .error (.valueError ("Could not locate dimension " ++ r.name))

/-- The shared metric-resolution loop of `MonitoringSpec.resolve` and
`AlertDefinition.resolve`: for each de-duplicated metric name, require a
definition (else `ValueError`) and flatten the resolved summaries. -/
def resolveMetricNames (spec : MonitoringSpec) :
    List String → Except PyError (List Summary)
  | [] => .ok []
  | n :: rest =>
    match dlookup spec.metrics.definitions n with
    | some d =>
      match d.resolve spec with
      | .error e => .error e
      | .ok s =>
        match resolveMetricNames spec rest with
        | .error e => .error e
        | .ok tail => .ok (s ++ tail)
    | none => .error (.valueError ("No definition for metric " ++ n ++ "."))

/-- The statistics allow-list loop of `AlertDefinition.resolve`. -/
def checkAlertStatistics (alertName : String) :
    List String → Except PyError (List String)
  | [] => .ok []
  | s :: rest =>
    if statisticExists s then
      match checkAlertStatistics alertName rest with
      | .error e => .error e
      | .ok tail => .ok (s :: tail)
    else
      .error (.valueError
        ("Statistic '" ++ s ++ "' does not exist in alert '" ++ alertName ++ "'"))

/-- `AlertDefinition.resolve(spec)`. -/
def AlertDefinition.resolve (a : AlertDefinition) (spec : MonitoringSpec) :
    Except PyError Alert :=
  match resolveMetricNames spec (dedupFirst (a.metrics.map MetricReference.name)) with
  | .error e => .error e
  | .ok metrics =>
    match (match a.statistics with
      | some (s :: rest) =>
        match checkAlertStatistics a.name (dedupFirst (s :: rest)) with
        | .error e => .error e
        | .ok checked => .ok (some checked)
      | _ => .ok none : Except PyError (Option (List String))) with
    | .error e => .error e
    | .ok stats =>
      .ok { name := a.name
            type := a.type
            metrics := metrics
            friendly_name := a.friendly_name
            description := a.description
            parameters := a.parameters
            min := a.min
            max := a.max
            window_size := a.window_size
            max_relative_change := a.max_relative_change
            statistics := stats }

/-- `PopulationSpec.resolve(spec, experiment)`. -/
def PopulationSpec.resolve (p : PopulationSpec) (spec : MonitoringSpec)
    (experiment : Option Experiment) :
    Except PyError PopulationConfiguration :=
  match p.groupByCheck with
  | .error e => .error e
  | .ok _ =>
    match (match p.data_source with
      | some r =>
        match r.resolve spec with
        | .error e => .error e
        | .ok ds => .ok (some ds)
      | none => .ok none : Except PyError (Option DataSource)) with
    | .error e => .error e
    | .ok ds =>
      match (match p.group_by_dimension with
        | some g =>
          match g.resolve spec with
          | .error e => .error e
          | .ok dim => .ok (some dim)
        | none => .ok none : Except PyError (Option Dimension)) with
      | .error e => .error e
      | .ok gb =>
        .ok { data_source := ds
              boolean_pref := p.resolvedBooleanPref experiment
              channel := p.resolvedChannel experiment
              branches := p.resolvedBranches experiment
              monitor_entire_population := p.monitor_entire_population
              group_by_dimension := gb }

/-- `ProjectSpec.resolve(spec, experiment)`. -/
def ProjectSpec.resolve (proj : ProjectSpec) (spec : MonitoringSpec)
    (experiment : Option Experiment) : Except PyError ProjectConfiguration :=
  match proj.population.resolve spec experiment with
  | .error e => .error e
  | .ok pop =>
    .ok { name := pyOrStr proj.name
            (match experiment with
              | some e => e.name
              | none => none)
          xaxis := (match proj.xaxis with
            | some x => x
            | none => .day)
          start_date := parseDate (pyOrStr proj.start_date
            (match experiment with
              | some e => e.start_date
              | none => none))
          end_date := parseDate (pyOrStr proj.end_date
            (match experiment with
              | some e => e.end_date
              | none => none))
          population := pop
          reference_branch := pyOrStrD proj.reference_branch
            (match experiment with
              | some e => (match e.reference_branch with
                | some r => if r = "" then "control" else r
                | none => "control")
              | none => "control")
          compact_visualization := proj.compact_visualization
          skip_default_metrics := proj.skip_default_metrics
          skip := proj.skip
          platform := proj.platform }

/-- The dimension-resolution loop of `MonitoringSpec.resolve`. -/
def resolveDimensionNames (spec : MonitoringSpec) :
    List String → Except PyError (List Dimension)
  | [] => .ok []
  | n :: rest =>
    match dlookup spec.dimensions.definitions n with
    | some d =>
      match d.resolve spec with
      | .error e => .error e
      | .ok dim =>
        match resolveDimensionNames spec rest with
        | .error e => .error e
        | .ok tail => .ok (dim :: tail)
    | none => .error (.valueError ("No definition for dimension " ++ n ++ "."))

/-- The alert-resolution loop of `MonitoringSpec.resolve`. -/
def resolveAlertNames (spec : MonitoringSpec) :
    List String → Except PyError (List Alert)
  | [] => .ok []
  | n :: rest =>
    match dlookup spec.alerts.definitions n with
    | some a =>
      match a.resolve spec with
      | .error e => .error e
      | .ok alert =>
        match resolveAlertNames spec rest with
        | .error e => .error e
        | .ok tail => .ok (alert :: tail)
    | none => .error (.valueError ("No definition for alert " ++ n ++ "."))

/-- The body of `MonitoringSpec.resolve` after the double-resolve guard has
passed and the `_resolved` flag has been set: `spec1` is the already-marked
spec that all sub-resolutions receive (Python's mutated `self`). -/
def MonitoringSpec.resolveBody (spec1 : MonitoringSpec)
    (experiment : Option Experiment) :
    Except PyError MonitoringConfiguration :=
  match resolveMetricNames spec1
    (dedupFirst (spec1.project.metrics.map MetricReference.name)) with
  | .error e => .error e
  | .ok metrics =>
    match resolveDimensionNames spec1
      (dedupFirst (spec1.project.population.dimensions.map
        DimensionReference.name)) with
    | .error e => .error e
    | .ok dims =>
      match resolveAlertNames spec1
        (dedupFirst (spec1.project.alerts.map AlertReference.name)) with
      | .error e => .error e
      | .ok alerts =>
        match spec1.project.resolve spec1 experiment with
        | .error e => .error e
        | .ok proj =>
          .ok { project := some proj
                metrics := metrics
                dimensions := dims
                alerts := alerts }

/-- `MonitoringSpec.resolve(experiment)`: returns the post-call spec (the
`_resolved` flag is set immediately after the guard, before any resolution
work) together with the produced configuration or the raised error. -/
def MonitoringSpec.resolve (spec : MonitoringSpec)
    (experiment : Option Experiment) :
    MonitoringSpec × Except PyError MonitoringConfiguration :=
  if spec.resolved then
    (spec, .error (.exception "Can't resolve an MonitoringSpec twice"))
  else
    ({ spec with resolved := true },
      MonitoringSpec.resolveBody { spec with resolved := true } experiment)

/-- `MonitoringSpec.merge(other)`: a no-op when `other` is `None`. -/
def MonitoringSpec.merge (self : MonitoringSpec)
    (other : Option MonitoringSpec) : MonitoringSpec :=
  match other with
  | none => self
  | some o =>
    { project := self.project.merge o.project
      data_sources := self.data_sources.merge o.data_sources
      metrics := self.metrics.merge o.metrics
      dimensions := self.dimensions.merge o.dimensions
      alerts := self.alerts.merge o.alerts
      resolved := self.resolved }

/-- Replace the project's metric reference list (used to state that
resolution only depends on the de-duplicated reference names). -/
def MonitoringSpec.withMetricRefs (spec : MonitoringSpec)
    (l : List MetricReference) : MonitoringSpec :=
  { spec with project := { spec.project with metrics := l } }

/-! ## Claim-level predicates

`specClaimedAlertViolation` transcribes the spec claim's wording for when
`AlertDefinition` construction must fail ("set"/"unset"/"given" read as
is-not-None/is-None); it is compared against the validation actually
performed by `AlertDefinition.validate`, whose truthiness-corrected
condition is `alertShapeViolation`. -/

/-- The claim's predicate: construction raises exactly when these
type-shape conditions hold ("set" = not `None`, "given" = not `None`). -/
def specClaimedAlertViolation (a : AlertDefinition) : Bool :=
  match a.type with
  | .ci_overlap =>
    a.min.isSome || a.max.isSome || a.window_size.isSome
      || a.max_relative_change.isSome
  | .threshold =>
    (a.min.isNone && a.max.isNone)
      || (a.parameters.isSome && a.min.isSome
          && decide ((a.min.getD []).length ≠ (a.parameters.getD []).length))
      || (a.parameters.isSome && a.max.isSome
          && decide ((a.max.getD []).length ≠ (a.parameters.getD []).length))
      || a.window_size.isSome || a.max_relative_change.isSome
  | .avg_diff =>
    a.min.isSome || a.max.isSome || a.window_size.isNone
      || a.max_relative_change.isNone

/-- The condition under which `AlertDefinition.validate` actually raises:
as the claim states it, except that the threshold length checks require the
`min`/`max`/`parameters` lists to be truthy (non-`None` AND non-empty),
mirroring `self.min and self.parameters and len(...) != len(...)`. -/
def alertShapeViolation (a : AlertDefinition) : Bool :=
  match a.type with
  | .ci_overlap =>
    a.min.isSome || a.max.isSome || a.window_size.isSome
      || a.max_relative_change.isSome
  | .threshold =>
    (a.min.isNone && a.max.isNone)
      || (pyTruthyList a.min && pyTruthyList a.parameters
          && decide ((a.min.getD []).length ≠ (a.parameters.getD []).length))
      || (pyTruthyList a.max && pyTruthyList a.parameters
          && decide ((a.max.getD []).length ≠ (a.parameters.getD []).length))
      || a.window_size.isSome || a.max_relative_change.isSome
  | .avg_diff =>
    a.window_size.isNone || a.max_relative_change.isNone
      || a.min.isSome || a.max.isSome

/-! ## Concrete example inputs used by witnesses and counterexamples -/

/-- A metric definition `test` over data source `foo` (default statistics
`{percentile: {}}`). -/
def exMetricTest : MetricDefinition :=
  { name := "test", select_expression := "SELECT 1", data_source := ⟨"foo"⟩ }

/-- A minimal monitoring spec defining data source `foo` and metric
`test`, with the given project metric references. -/
def exSpecWith (refs : List MetricReference) : MonitoringSpec :=
  { project := { metrics := refs }
    data_sources := ⟨[("foo", { name := "foo", from_expression := "t" })]⟩
    metrics := ⟨[("test", exMetricTest)]⟩ }

/-- The post-resolution state of the empty spec. -/
def exResolvedEmptySpec : MonitoringSpec := { resolved := true }

/-- The configuration produced by resolving the empty spec without an
experiment. -/
def exEmptyCfg : MonitoringConfiguration :=
  { project := some { population := { } } }

/-- A spec referencing the undefined metric `foo` (resolution fails). -/
def exBadMetricSpec : MonitoringSpec :=
  { project := { metrics := [⟨"foo"⟩] } }

/-- Layer A's definition of alert `x`: `metrics=[m1]` and a truthy
`description`. -/
def exAlertX1 : AlertDefinition :=
  { name := "x", type := .ci_overlap, metrics := [⟨"m1"⟩],
    description := some "d" }

/-- Layer B's definition of alert `x`: `metrics=[m2]`, no `description`. -/
def exAlertX2 : AlertDefinition :=
  { name := "x", type := .ci_overlap, metrics := [⟨"m2"⟩] }

/-- Layer A of the C2 example. -/
def exAlertsA : AlertsSpec := ⟨[("x", exAlertX1)]⟩

/-- Layer B of the C2 example. -/
def exAlertsB : AlertsSpec := ⟨[("x", exAlertX2)]⟩

/-- Layer A of the C4 example: `metrics.test.select_expression =
"SELECT 1"`, referenced by the project. -/
def exSpecA4 : MonitoringSpec := exSpecWith [⟨"test"⟩]

/-- Layer B of the C4 example: redefines `metrics.test` with
`select_expression = "SELECT 2"`. -/
def exSpecB4 : MonitoringSpec :=
  { metrics := ⟨[("test",
      { name := "test", select_expression := "SELECT 2",
        data_source := ⟨"foo"⟩ })]⟩ }

/-- The C6 edge case: a threshold alert with `min = [1]` and
`parameters = []`. -/
def exAlertC6 : AlertDefinition :=
  { name := "x", type := .threshold, metrics := [], min := some [1],
    parameters := some [] }

/-- The C5 counterexample input: a data-source table keyed `"Foo"`. -/
def exDsDict : Dict DataSourceFields := [("Foo", { from_expression := "x" })]

/-- A metric table keyed `"Foo"` (C5 witness input). -/
def exMetricDict : Dict MetricFields :=
  [("Foo", { select_expression := "s", data_source := ⟨"d"⟩ })]

/-- A dimension table keyed `"Bar"` (C5 witness input). -/
def exDimensionDict : Dict DimensionFields :=
  [("Bar", { select_expression := "os", data_source := ⟨"d"⟩ })]

/-- An alert table keyed `"Baz"` (C5 witness input; a valid ci_overlap
alert so construction succeeds). -/
def exAlertDict : Dict AlertFields :=
  [("Baz", { type := .ci_overlap, metrics := [⟨"m"⟩] })]

/-- C6: a threshold alert with neither `min` nor `max` set. -/
def exThresholdNoBounds : AlertDefinition :=
  { name := "t", type := .threshold, metrics := [] }

/-- C6: a threshold alert with `min = [1]`. -/
def exThresholdMin1 : AlertDefinition :=
  { name := "t", type := .threshold, metrics := [], min := some [1] }

/-- C6: an avg_diff alert without `window_size`. -/
def exAvgDiffNoWindow : AlertDefinition :=
  { name := "a", type := .avg_diff, metrics := [],
    max_relative_change := some 1 }

/-- C6: an avg_diff alert with `window_size` and `max_relative_change`. -/
def exAvgDiffOk : AlertDefinition :=
  { name := "a", type := .avg_diff, metrics := [], window_size := some 7,
    max_relative_change := some 1 }

/-- The `AlertsSpec` produced from `exAlertDict` (C5 witness). -/
def exAlertsBaz : AlertsSpec :=
  ⟨[("baz", { name := "baz", type := .ci_overlap, metrics := [⟨"m"⟩] })]⟩

/-- C7: population grouping by `os` without listing it as a dimension. -/
def exPopBad : PopulationSpec := { group_by_dimension := some ⟨"os"⟩ }

/-- C7: population grouping by `os` and listing it as a dimension. -/
def exPopGood : PopulationSpec :=
  { dimensions := [⟨"os"⟩], group_by_dimension := some ⟨"os"⟩ }

/-- C8: an experiment with two branches, not a rollout. -/
def exExperiment : Experiment :=
  { branches := [⟨"control", 1⟩, ⟨"treatment", 1⟩] }

/-- C8: the configuration resolved from the empty population spec against
`exExperiment`. -/
def exPopCfg : PopulationConfiguration :=
  { branches := ["control", "treatment"] }

/-- C10: a population layer with explicit branches and a channel. -/
def exPopA10 : PopulationSpec :=
  { branches := some ["a"], channel := some .nightly,
    boolean_pref := some "p" }

/-- C10: a population layer with different branches and no channel. -/
def exPopB10 : PopulationSpec := { branches := some ["b"] }

/-- C10: a population layer with no branches and a channel. -/
def exPopC10 : PopulationSpec := { channel := some .beta }

/-! ## Dictionary lemmas -/

theorem pyOrOpt_none_right {α : Type} (a : Option α) : pyOrOpt a none = a := by
  cases a <;> rfl

theorem dlookup_append {α : Type} (x y : Dict α) (k : String) :
    dlookup (x ++ y) k = pyOrOpt (dlookup x k) (dlookup y k) := by
  induction x with
  | nil => rfl
  | cons kv rest ih =>
    by_cases h : kv.1 = k
    · simp [dlookup, h, pyOrOpt]
    · simp [dlookup, h, ih]

theorem dlookup_updateMap {α : Type} (a b : Dict α) (k : String) :
    dlookup (a.map fun kv =>
      match dlookup b kv.1 with
      | some v => (kv.1, v)
      | none => kv) k
    = match dlookup a k with
      | some v => pyOrOpt (dlookup b k) (some v)
      | none => none := by
  induction a with
  | nil => rfl
  | cons kv rest ih =>
    by_cases h : kv.1 = k
    · subst h
      cases hb : dlookup b kv.1 <;> simp [dlookup, hb, pyOrOpt]
    · cases hb : dlookup b kv.1 <;> simp [dlookup, h, hb, ih]

theorem dlookup_filterAbsent {α : Type} (a b : Dict α) (k : String) :
    dlookup (b.filter fun kv => (dlookup a kv.1).isNone) k
    = match dlookup a k with
      | some _ => none
      | none => dlookup b k := by
  induction b with
  | nil => cases dlookup a k <;> rfl
  | cons kv rest ih =>
    by_cases h : kv.1 = k
    · subst h
      cases ha : dlookup a kv.1 <;>
        simp [List.filter_cons, ha, dlookup, ih]
    · cases ha : dlookup a k <;>
        cases ha2 : dlookup a kv.1 <;>
          simp [List.filter_cons, ha, ha2, dlookup, h, ih]

theorem dlookup_dictUpdate {α : Type} (a b : Dict α) (k : String) :
    dlookup (dictUpdate a b) k = pyOrOpt (dlookup b k) (dlookup a k) := by
  unfold dictUpdate
  rw [dlookup_append, dlookup_updateMap, dlookup_filterAbsent]
  cases dlookup a k <;> cases dlookup b k <;> rfl

theorem dlookup_dictSet_ne {α : Type} (d : Dict α) {k' k : String}
    (h : k' ≠ k) (v : α) : dlookup (dictSet d k' v) k = dlookup d k := by
  induction d with
  | nil => rfl
  | cons kv rest ih =>
    simp only [dictSet, List.map_cons] at ih ⊢
    by_cases h1 : kv.1 = k'
    · have h2 : ¬ kv.1 = k := by rw [h1]; exact h
      simp [dlookup, h1, h2, ih, h]
    · by_cases h2 : kv.1 = k
      · simp [dlookup, h1, h2, Ne.symm h]
      · simp [dlookup, h1, h2, ih]

theorem dlookup_none_notMem {α : Type} (d : Dict α) (k : String)
    (h : dlookup d k = none) : ∀ kv ∈ d, kv.1 ≠ k := by
  induction d with
  | nil => intro kv hkv; cases hkv
  | cons kv rest ih =>
    intro x hx
    by_cases h1 : kv.1 = k
    · simp [dlookup, h1] at h
    · simp [dlookup, h1] at h
      rcases List.mem_cons.mp hx with rfl | hx2
      · exact h1
      · exact ih h x hx2

theorem dcontains_append {α : Type} (x y : Dict α) (k : String) :
    dcontains (x ++ y) k = (dcontains x k || dcontains y k) := by
  unfold dcontains
  rw [dlookup_append]
  cases dlookup x k <;> cases dlookup y k <;> rfl

/-- The per-alert merge loop leaves keys absent from `other` untouched. -/
theorem dlookup_alertMergeFold (l : Dict AlertDefinition) (k : String)
    (h : ∀ kv ∈ l, kv.1 ≠ k) (acc : Dict AlertDefinition) :
    dlookup (l.foldl (fun acc kv =>
      match dlookup acc kv.1 with
      | some existing => dictSet acc kv.1 (existing.fieldMerge kv.2)
      | none => acc ++ [kv]) acc) k = dlookup acc k := by
  induction l generalizing acc with
  | nil => rfl
  | cons kv rest ih =>
    have hk : kv.1 ≠ k := h kv (List.mem_cons_self kv rest)
    have hrest : ∀ x ∈ rest, x.1 ≠ k := fun x hx => h x (List.mem_cons_of_mem kv hx)
    simp only [List.foldl_cons]
    cases hl : dlookup acc kv.1
    · rw [ih hrest, dlookup_append]
      simp [dlookup, hk, pyOrOpt_none_right]
    · rw [ih hrest, dlookup_dictSet_ne _ hk]

/-- `AlertsSpec.merge` resolves each alert name to `other`'s definition
when present, else `self`'s: the trailing `definitions.update` makes the
other layer win wholesale per key. -/
theorem alertsMerge_dlookup (a b : AlertsSpec) (k : String) :
    dlookup (a.merge b).definitions k
    = pyOrOpt (dlookup b.definitions k) (dlookup a.definitions k) := by
  unfold AlertsSpec.merge
  simp only
  rw [dlookup_dictUpdate]
  cases hb : dlookup b.definitions k
  · rw [dlookup_alertMergeFold b.definitions k
      (dlookup_none_notMem b.definitions k hb) a.definitions]
  · rfl

/-- `dict((k.lower(), v) for ...)` is a plain key-lowering map when the
lowered keys are pairwise distinct. -/
theorem pyLowerKeys_foldl {α : Type} (d : Dict α) :
    ∀ acc : Dict α, (∀ kv ∈ d, dcontains acc (pyLower kv.1) = false) →
    (d.map fun kv => (pyLower kv.1)).Nodup →
    d.foldl (fun acc kv => pyDictSetItem acc (pyLower kv.1) kv.2) acc
      = acc ++ d.map fun kv => ((pyLower kv.1), kv.2) := by
  induction d with
  | nil => intro acc _ _; simp
  | cons kv rest ih =>
    intro acc hacc hnd
    have hhead : dcontains acc (pyLower kv.1) = false :=
      hacc kv (List.mem_cons_self kv rest)
    rw [List.map_cons, List.nodup_cons] at hnd
    obtain ⟨hnotin, hndrest⟩ := hnd
    have hstep : pyDictSetItem acc (pyLower kv.1) kv.2
        = acc ++ [((pyLower kv.1), kv.2)] := by
      simp [pyDictSetItem, hhead]
    rw [List.foldl_cons, hstep, ih (acc ++ [((pyLower kv.1), kv.2)]) ?_ hndrest]
    · simp
    · intro x hx
      rw [dcontains_append]
      have h1 : dcontains acc (pyLower x.1) = false :=
        hacc x (List.mem_cons_of_mem kv hx)
      have h2 : (pyLower kv.1) ≠ (pyLower x.1) := by
        intro hcontra
        exact hnotin (hcontra ▸ List.mem_map_of_mem (fun y => (pyLower y.1)) hx)
      have h1' : dlookup acc (pyLower x.1) = none := by
        rcases hl : dlookup acc (pyLower x.1) with _ | v
        · rfl
        · simp [dcontains, hl] at h1
      simp [dcontains, dlookup, h1', h2]

/-- `pyLowerKeys` under distinct lowered keys. -/
theorem pyLowerKeys_eq_map {α : Type} (d : Dict α)
    (h : (d.map fun kv => (pyLower kv.1)).Nodup) :
    pyLowerKeys d = d.map fun kv => ((pyLower kv.1), kv.2) := by
  unfold pyLowerKeys
  rw [pyLowerKeys_foldl d [] (fun kv _ => rfl) h]
  simp

/-- A successfully constructed `AlertDefinition` carries the injected name. -/
theorem mkAlertDefinition_ok_name (k : String) (v : AlertFields)
    (a : AlertDefinition) (h : mkAlertDefinition k v = .ok a) : a.name = k := by
  simp only [mkAlertDefinition] at h
  split at h
  · injection h with h'
    subst h'
    rfl
  · exact Except.noConfusion h

/-- Alert construction preserves keys and injects names on success. -/
theorem mkAlertDefinitions_ok (l : Dict AlertFields) :
    ∀ r, mkAlertDefinitions l = .ok r →
    r.map Prod.fst = l.map Prod.fst ∧ ∀ kv ∈ r, kv.2.name = kv.1 := by
  induction l with
  | nil =>
    intro r h
    cases h
    exact ⟨rfl, fun kv hkv => absurd hkv (List.not_mem_nil kv)⟩
  | cons kv rest ih =>
    intro r h
    unfold mkAlertDefinitions at h
    split at h
    · exact Except.noConfusion h
    · rename_i a ha
      split at h
      · exact Except.noConfusion h
      · rename_i tail htail
        injection h with h'
        subst h'
        obtain ⟨htk, htn⟩ := ih tail htail
        refine ⟨by simp [htk], ?_⟩
        intro x hx
        rcases List.mem_cons.mp hx with rfl | hx2
        · exact mkAlertDefinition_ok_name kv.1 kv.2 a ha
        · exact htn x hx2

/-! ## Congruence lemmas: each resolve step depends only on the spec
components it reads. -/

theorem dataSourceRefResolve_congr (r : DataSourceReference)
    {sA sB : MonitoringSpec} (hds : sA.data_sources = sB.data_sources) :
    r.resolve sA = r.resolve sB := by
  unfold DataSourceReference.resolve
  rw [hds]

theorem metricDefResolveStats_congr (d : MetricDefinition)
    {sA sB : MonitoringSpec} (hds : sA.data_sources = sB.data_sources) :
    ∀ l, d.resolveStats sA l = d.resolveStats sB l := by
  intro l
  induction l with
  | nil => rfl
  | cons kv rest ih =>
    obtain ⟨statName, params⟩ := kv
    simp only [MetricDefinition.resolveStats,
      dataSourceRefResolve_congr d.data_source hds]
    cases d.data_source.resolve sB
    · rfl
    · rw [ih]

theorem metricDefResolve_congr (d : MetricDefinition)
    {sA sB : MonitoringSpec} (hds : sA.data_sources = sB.data_sources) :
    d.resolve sA = d.resolve sB := by
  unfold MetricDefinition.resolve
  cases hs : d.statistics with
  | none => rfl
  | some l =>
    cases l with
    | nil => rfl
    | cons kv rest => exact metricDefResolveStats_congr d hds (kv :: rest)

theorem resolveMetricNames_congr {sA sB : MonitoringSpec}
    (hms : sA.metrics = sB.metrics) (hds : sA.data_sources = sB.data_sources) :
    ∀ names, resolveMetricNames sA names = resolveMetricNames sB names := by
  intro names
  induction names with
  | nil => rfl
  | cons n rest ih =>
    simp only [resolveMetricNames, hms]
    cases hd : dlookup sB.metrics.definitions n with
    | none => rfl
    | some d => simp only [metricDefResolve_congr d hds, ih]

theorem dimensionDefResolve_congr (d : DimensionDefinition)
    {sA sB : MonitoringSpec} (hds : sA.data_sources = sB.data_sources) :
    d.resolve sA = d.resolve sB := by
  unfold DimensionDefinition.resolve
  rw [dataSourceRefResolve_congr d.data_source hds]

theorem dimensionRefResolve_congr (r : DimensionReference)
    {sA sB : MonitoringSpec} (hds : sA.data_sources = sB.data_sources)
    (hdm : sA.dimensions = sB.dimensions) : r.resolve sA = r.resolve sB := by
  unfold DimensionReference.resolve
  rw [hdm]
  cases dlookup sB.dimensions.definitions r.name
  · rfl
  · rename_i d
    exact dimensionDefResolve_congr d hds

theorem resolveDimensionNames_congr {sA sB : MonitoringSpec}
    (hds : sA.data_sources = sB.data_sources)
    (hdm : sA.dimensions = sB.dimensions) :
    ∀ names, resolveDimensionNames sA names = resolveDimensionNames sB names := by
  intro names
  induction names with
  | nil => rfl
  | cons n rest ih =>
    simp only [resolveDimensionNames, hdm]
    cases hd : dlookup sB.dimensions.definitions n with
    | none => rfl
    | some d => simp only [dimensionDefResolve_congr d hds, ih]

theorem alertDefResolve_congr (a : AlertDefinition)
    {sA sB : MonitoringSpec} (hms : sA.metrics = sB.metrics)
    (hds : sA.data_sources = sB.data_sources) :
    a.resolve sA = a.resolve sB := by
  unfold AlertDefinition.resolve
  rw [resolveMetricNames_congr hms hds]

theorem resolveAlertNames_congr {sA sB : MonitoringSpec}
    (hal : sA.alerts = sB.alerts) (hms : sA.metrics = sB.metrics)
    (hds : sA.data_sources = sB.data_sources) :
    ∀ names, resolveAlertNames sA names = resolveAlertNames sB names := by
  intro names
  induction names with
  | nil => rfl
  | cons n rest ih =>
    simp only [resolveAlertNames, hal]
    cases hd : dlookup sB.alerts.definitions n with
    | none => rfl
    | some a => simp only [alertDefResolve_congr a hms hds, ih]

theorem populationResolve_congr (p : PopulationSpec)
    {sA sB : MonitoringSpec} (hds : sA.data_sources = sB.data_sources)
    (hdm : sA.dimensions = sB.dimensions) (exp : Option Experiment) :
    p.resolve sA exp = p.resolve sB exp := by
  unfold PopulationSpec.resolve
  have h1 : (match p.data_source with
      | some r =>
        match r.resolve sA with
        | .error e => .error e
        | .ok ds => .ok (some ds)
      | none => .ok none : Except PyError (Option DataSource))
      = (match p.data_source with
      | some r =>
        match r.resolve sB with
        | .error e => .error e
        | .ok ds => .ok (some ds)
      | none => .ok none) := by
    cases p.data_source with
    | none => rfl
    | some r => simp only [dataSourceRefResolve_congr r hds]
  have h2 : (match p.group_by_dimension with
      | some g =>
        match g.resolve sA with
        | .error e => .error e
        | .ok dim => .ok (some dim)
      | none => .ok none : Except PyError (Option Dimension))
      = (match p.group_by_dimension with
      | some g =>
        match g.resolve sB with
        | .error e => .error e
        | .ok dim => .ok (some dim)
      | none => .ok none) := by
    cases p.group_by_dimension with
    | none => rfl
    | some g => simp only [dimensionRefResolve_congr g hds hdm]
  rw [h1, h2]

theorem ProjectSpec.resolve_metrics_irrel (p : ProjectSpec)
    (l1 l2 : List MetricReference) {sA sB : MonitoringSpec}
    (hds : sA.data_sources = sB.data_sources)
    (hdm : sA.dimensions = sB.dimensions) (exp : Option Experiment) :
    ProjectSpec.resolve { p with metrics := l1 } sA exp
      = ProjectSpec.resolve { p with metrics := l2 } sB exp := by
  unfold ProjectSpec.resolve
  simp only
  rw [populationResolve_congr p.population hds hdm exp]

/-- The resolution body only depends on the de-duplicated metric reference
names (together with the components it reads). -/
theorem MonitoringSpec.resolveBody_congr {sA sB : MonitoringSpec}
    (exp : Option Experiment)
    (hpm : dedupFirst (sA.project.metrics.map MetricReference.name)
      = dedupFirst (sB.project.metrics.map MetricReference.name))
    (hpd : sA.project.population.dimensions = sB.project.population.dimensions)
    (hpa : sA.project.alerts = sB.project.alerts)
    (hproj : sA.project.resolve sA exp = sB.project.resolve sB exp)
    (hms : sA.metrics = sB.metrics)
    (hds : sA.data_sources = sB.data_sources)
    (hdm : sA.dimensions = sB.dimensions)
    (hal : sA.alerts = sB.alerts) :
    MonitoringSpec.resolveBody sA exp = MonitoringSpec.resolveBody sB exp := by
  unfold MonitoringSpec.resolveBody
  rw [hpm, resolveMetricNames_congr hms hds, hpd,
    resolveDimensionNames_congr hds hdm, hpa,
    resolveAlertNames_congr hal hms hds, hproj]

/-! ## PopulationSpec.resolve projections on success -/

theorem PopulationSpec.resolve_ok_fields (p : PopulationSpec)
    (spec : MonitoringSpec) (exp : Option Experiment)
    (cfg : PopulationConfiguration) (h : p.resolve spec exp = .ok cfg) :
    cfg.branches = p.resolvedBranches exp
      ∧ cfg.boolean_pref = p.resolvedBooleanPref exp
      ∧ cfg.channel = p.resolvedChannel exp := by
  unfold PopulationSpec.resolve at h
  split at h
  · exact Except.noConfusion h
  · split at h
    · exact Except.noConfusion h
    · split at h
      · exact Except.noConfusion h
      · injection h with h'
        subst h'
        exact ⟨rfl, rfl, rfl⟩

/-! ## Claim theorems -/

/-- C1: once a `MonitoringSpec`'s `resolve` has completed (returned a
configuration), any second `resolve` call on the resulting spec state
raises the fatal `Exception` "Can't resolve an MonitoringSpec twice",
regardless of the experiment argument passed. -/
theorem C1_resolve_twice_fails (spec spec1 : MonitoringSpec)
    (e1 e2 : Option Experiment) (cfg : MonitoringConfiguration)
    (h : spec.resolve e1 = (spec1, .ok cfg)) :
    (spec1.resolve e2).2
      = .error (.exception "Can't resolve an MonitoringSpec twice") := by
  unfold MonitoringSpec.resolve at h
  by_cases hr : spec.resolved = true
  · rw [if_pos hr] at h
    have h2 := congrArg Prod.snd h
    exact Except.noConfusion h2
  · rw [if_neg hr] at h
    rw [Prod.mk.injEq] at h
    obtain ⟨h1, -⟩ := h
    subst h1
    unfold MonitoringSpec.resolve
    rw [if_pos rfl]

/-- C1 witness: the empty spec resolves successfully, and resolving the
returned spec state again fails fatally. -/
theorem C1_witness :
    MonitoringSpec.resolve {} none = (exResolvedEmptySpec, .ok exEmptyCfg)
      ∧ (exResolvedEmptySpec.resolve none).2
          = .error (.exception "Can't resolve an MonitoringSpec twice") :=
  ⟨by decide,
    C1_resolve_twice_fails {} exResolvedEmptySpec none none exEmptyCfg
      (by decide)⟩

/-- C2 counterexample: merging alert `x` with `metrics=[m1]` (layer A,
with a truthy `description`) and `x` with `metrics=[m2]` (layer B) yields
`x` with metrics `[m2]` only — not the concatenation `[m1, m2]` — and with
layer B's `None` description rather than A's truthy one, because the
trailing `definitions.update` overwrites the field-merged entry. -/
theorem C2_counterexample :
    ((dlookup (exAlertsA.merge exAlertsB).definitions "x").map
        AlertDefinition.metrics = some [⟨"m2"⟩])
      ∧ ¬ ((dlookup (exAlertsA.merge exAlertsB).definitions "x").map
        AlertDefinition.metrics = some [⟨"m1"⟩, ⟨"m2"⟩])
      ∧ ((dlookup (exAlertsA.merge exAlertsB).definitions "x").map
        AlertDefinition.description = some none) := by
  exact ⟨by decide, by decide, by decide⟩

/-- C2 amended: for every pair of `AlertsSpec`s A and B that both define
an alert with the same name X, after `A.merge(B)` the resulting definition
of X is B's definition wholesale (B's metrics list and B's field values):
the trailing `self.definitions.update(other.definitions)` makes the other
layer win per key, overriding the preceding field-level merge loop. -/
theorem C2_alerts_merge_other_wins (A B : AlertsSpec) (X : String)
    (defB : AlertDefinition) (h : dlookup B.definitions X = some defB) :
    dlookup (A.merge B).definitions X = some defB := by
  rw [alertsMerge_dlookup, h]
  rfl

/-- C2 witness: at the concrete layers of the counterexample, the merged
definition of `x` is layer B's definition. -/
theorem C2_witness :
    dlookup exAlertsB.definitions "x" = some exAlertX2
      ∧ dlookup (exAlertsA.merge exAlertsB).definitions "x" = some exAlertX2 :=
  ⟨by decide,
    C2_alerts_merge_other_wins exAlertsA exAlertsB "x" exAlertX2 (by decide)⟩

/-- C4: `MetricsSpec.merge` overwrites per key with the other spec's
definition winning wholesale; concretely, layering `SELECT 2` over
`SELECT 1` for `metrics.test` leaves the resolved configuration's metric
`test` with select_expression `"SELECT 2"`. -/
theorem C4_metrics_merge_other_wins :
    (∀ (A B : MetricsSpec) (k : String),
      dlookup (A.merge B).definitions k
        = pyOrOpt (dlookup B.definitions k) (dlookup A.definitions k))
    ∧ (((exSpecA4.merge (some exSpecB4)).resolve none).2.toOption.map
        (fun cfg => cfg.metrics.map fun s => s.metric.select_expression)
        = some ["SELECT 2"]) := by
  constructor
  · intro A B k
    exact dlookup_dictUpdate A.definitions B.definitions k
  · decide

/-- C9 counterexample: resolving a spec that references the undefined
metric `foo` raises `ValueError`, yet the spec IS left marked resolved —
refuting the claim that the flag is only set after all resolution steps
succeed and that the state is unchanged on error. -/
theorem C9_counterexample :
    (exBadMetricSpec.resolve none).2
        = .error (.valueError "No definition for metric foo.")
      ∧ (exBadMetricSpec.resolve none).1.resolved = true := by
  exact ⟨by decide, by decide⟩

/-- C9 amended: `MonitoringSpec.resolve` marks the spec resolved
immediately after the double-resolve guard, before any metric, dimension,
alert, or project resolution; consequently even a `resolve` call that
raises (e.g. `ValueError` for a missing definition) leaves the spec marked
resolved. -/
theorem C9_resolve_marks_immediately (spec : MonitoringSpec)
    (exp : Option Experiment) (h : spec.resolved = false) :
    (spec.resolve exp).1 = { spec with resolved := true } := by
  simp [MonitoringSpec.resolve, h]

/-- C9 witness: the failing spec of the counterexample starts unresolved
and is marked resolved by its failing `resolve` call. -/
theorem C9_witness :
    exBadMetricSpec.resolved = false
      ∧ (exBadMetricSpec.resolve none).1
          = { exBadMetricSpec with resolved := true } :=
  ⟨rfl, C9_resolve_marks_immediately exBadMetricSpec none rfl⟩

/-- C3: `resolve` processes the de-duplicated set of metric-reference
names — the resolution outcome only depends on that set, a doubly
referenced `test` yields exactly one metric-statistics group, and a
reference to the undefined `missing` fails with a `ValueError` naming it. -/
theorem C3_dedup_and_missing :
    (∀ (spec : MonitoringSpec) (exp : Option Experiment)
        (l1 l2 : List MetricReference),
      dedupFirst (l1.map MetricReference.name)
          = dedupFirst (l2.map MetricReference.name) →
      ((spec.withMetricRefs l1).resolve exp).2
        = ((spec.withMetricRefs l2).resolve exp).2)
    ∧ (((exSpecWith [⟨"test"⟩, ⟨"test"⟩]).resolve none).2.toOption.map
        (fun cfg => cfg.metrics.length) = some 1)
    ∧ (((exSpecWith [⟨"test"⟩, ⟨"missing"⟩]).resolve none).2
        = .error (.valueError "No definition for metric missing.")) := by
  refine ⟨?_, by decide, by decide⟩
  intro spec exp l1 l2 h
  unfold MonitoringSpec.resolve MonitoringSpec.withMetricRefs
  by_cases hr : spec.resolved = true
  · rw [if_pos hr, if_pos hr]
  · rw [if_neg hr, if_neg hr]
    exact MonitoringSpec.resolveBody_congr exp h rfl rfl
      (ProjectSpec.resolve_metrics_irrel spec.project l1 l2 rfl rfl exp)
      rfl rfl rfl rfl

/-- C3 witness: the duplicate-reference list `["test", "test"]` resolves
exactly as the singleton list `["test"]`. -/
theorem C3_witness :
    dedupFirst (([⟨"test"⟩, ⟨"test"⟩] : List MetricReference).map
        MetricReference.name)
      = dedupFirst (([⟨"test"⟩] : List MetricReference).map
        MetricReference.name)
    ∧ (((exSpecWith []).withMetricRefs [⟨"test"⟩, ⟨"test"⟩]).resolve none).2
      = (((exSpecWith []).withMetricRefs [⟨"test"⟩]).resolve none).2 :=
  ⟨by decide,
    C3_dedup_and_missing.1 (exSpecWith []) none [⟨"test"⟩, ⟨"test"⟩]
      [⟨"test"⟩] (by decide)⟩

/-- C5 counterexample: `DataSourcesSpec.from_dict` does NOT lower-case its
keys — a table keyed `"Foo"` keeps the key `"Foo"`, refuting the claim
that every definition container lower-cases. -/
theorem C5_counterexample :
    ((DataSourcesSpec.from_dict exDsDict).definitions.map Prod.fst = ["Foo"])
      ∧ ¬ ((DataSourcesSpec.from_dict exDsDict).definitions.map Prod.fst
        = ["foo"]) :=
  ⟨by decide, by decide⟩

/-- C5 amended: `MetricsSpec`, `DimensionsSpec` and `AlertsSpec` lower-case
the keys of the input table and inject each key as the definition's `name`;
`DataSourcesSpec.from_dict` keeps the keys as given (no lower-casing) while
still injecting the key as `name`. (Key lists are stated for inputs whose
processed keys are pairwise distinct.) -/
theorem C5_from_dict_keys_and_names :
    (∀ d : Dict DataSourceFields,
      ((DataSourcesSpec.from_dict d).definitions.map Prod.fst = d.map Prod.fst)
      ∧ ∀ kv ∈ (DataSourcesSpec.from_dict d).definitions, kv.2.name = kv.1)
    ∧ (∀ d : Dict MetricFields, (d.map fun kv => (pyLower kv.1)).Nodup →
      ((MetricsSpec.from_dict d).definitions.map Prod.fst
          = d.map fun kv => (pyLower kv.1))
      ∧ ∀ kv ∈ (MetricsSpec.from_dict d).definitions, kv.2.name = kv.1)
    ∧ (∀ d : Dict DimensionFields, (d.map fun kv => (pyLower kv.1)).Nodup →
      ((DimensionsSpec.from_dict d).definitions.map Prod.fst
          = d.map fun kv => (pyLower kv.1))
      ∧ ∀ kv ∈ (DimensionsSpec.from_dict d).definitions, kv.2.name = kv.1)
    ∧ (∀ (d : Dict AlertFields) (s : AlertsSpec),
        (d.map fun kv => (pyLower kv.1)).Nodup →
        AlertsSpec.from_dict d = .ok s →
      (s.definitions.map Prod.fst = d.map fun kv => (pyLower kv.1))
      ∧ ∀ kv ∈ s.definitions, kv.2.name = kv.1) := by
  refine ⟨?_, ?_, ?_, ?_⟩
  · intro d
    constructor
    · simp [DataSourcesSpec.from_dict]
    · intro kv hkv
      simp only [DataSourcesSpec.from_dict] at hkv
      obtain ⟨x, hx, rfl⟩ := List.mem_map.mp hkv
      rfl
  · intro d hnd
    constructor
    · simp [MetricsSpec.from_dict, pyLowerKeys_eq_map d hnd]
    · intro kv hkv
      simp only [MetricsSpec.from_dict, pyLowerKeys_eq_map d hnd] at hkv
      obtain ⟨x, hx, rfl⟩ := List.mem_map.mp hkv
      rfl
  · intro d hnd
    constructor
    · simp [DimensionsSpec.from_dict, pyLowerKeys_eq_map d hnd]
    · intro kv hkv
      simp only [DimensionsSpec.from_dict, pyLowerKeys_eq_map d hnd] at hkv
      obtain ⟨x, hx, rfl⟩ := List.mem_map.mp hkv
      rfl
  · intro d s hnd h
    unfold AlertsSpec.from_dict at h
    rw [pyLowerKeys_eq_map d hnd] at h
    split at h
    · rename_i defs hdefs
      injection h with h'
      subst h'
      obtain ⟨hk, hn⟩ := mkAlertDefinitions_ok _ defs hdefs
      refine ⟨?_, hn⟩
      rw [hk]
      simp
    · exact Except.noConfusion h

/-- C5 witness: the amended key/name behaviour at concrete tables. -/
theorem C5_witness :
    ((MetricsSpec.from_dict exMetricDict).definitions.map Prod.fst = ["foo"])
      ∧ ((DimensionsSpec.from_dict exDimensionDict).definitions.map Prod.fst
        = ["bar"])
      ∧ ((DataSourcesSpec.from_dict exDsDict).definitions.map Prod.fst
        = ["Foo"])
      ∧ (exAlertsBaz.definitions.map Prod.fst = ["baz"]) :=
  ⟨(C5_from_dict_keys_and_names.2.1 exMetricDict (by decide)).1.trans
      (by decide),
    (C5_from_dict_keys_and_names.2.2.1 exDimensionDict (by decide)).1.trans
      (by decide),
    (C5_from_dict_keys_and_names.1 exDsDict).1.trans (by decide),
    (C5_from_dict_keys_and_names.2.2.2 exAlertDict exAlertsBaz (by decide)
      (by decide)).1.trans (by decide)⟩

/-- C6 counterexample: a threshold alert with `min = [1]` and
`parameters = []` — the claim's "exactly when" predicate says construction
must fail (a given `min` whose length 1 differs from `parameters`' length
0), but `__attrs_post_init__` succeeds because the truthiness guard
`self.min and self.parameters` skips the length check for the empty
`parameters` list. -/
theorem C6_counterexample :
    ¬ ((exceptIsOk (AlertDefinition.validate exAlertC6) = false)
      ↔ (specClaimedAlertViolation exAlertC6 = true)) := by
  decide

/-- C6 amended: construction raises `ValueError` exactly when the
type-shape conditions hold, with the threshold length checks applying only
when the compared `min`/`max` list and `parameters` are both truthy
(non-`None` and non-empty); the claim's four spot examples also hold. -/
theorem C6_validation_iff (a : AlertDefinition) :
    (exceptIsOk (AlertDefinition.validate a) = ! alertShapeViolation a)
    ∧ (exceptIsOk (AlertDefinition.validate exThresholdNoBounds) = false)
    ∧ (exceptIsOk (AlertDefinition.validate exThresholdMin1) = true)
    ∧ (exceptIsOk (AlertDefinition.validate exAvgDiffNoWindow) = false)
    ∧ (exceptIsOk (AlertDefinition.validate exAvgDiffOk) = true) := by
  refine ⟨?_, by decide, by decide, by decide, by decide⟩
  unfold AlertDefinition.validate alertShapeViolation
  cases ht : a.type with
  | ci_overlap =>
    cases h1 : a.min.isSome <;>
      cases h2 : a.max.isSome <;>
        cases h3 : a.window_size.isSome <;>
          cases h4 : a.max_relative_change.isSome <;>
            simp [h1, h2, h3, h4, exceptIsOk]
  | threshold =>
    cases h1 : (a.min.isNone && a.max.isNone) <;>
      cases h2 : (pyTruthyList a.min && pyTruthyList a.parameters
        && decide ((a.min.getD []).length ≠ (a.parameters.getD []).length)) <;>
        cases h3 : (pyTruthyList a.max && pyTruthyList a.parameters
          && decide ((a.max.getD []).length
            ≠ (a.parameters.getD []).length)) <;>
          cases h4 : a.window_size.isSome <;>
            cases h5 : a.max_relative_change.isSome <;>
              simp [h1, h2, h3, h4, h5, exceptIsOk]
  | avg_diff =>
    cases h1 : a.window_size.isNone <;>
      cases h2 : a.max_relative_change.isNone <;>
        cases h3 : a.min.isSome <;>
          cases h4 : a.max.isSome <;>
            simp [h1, h2, h3, h4, exceptIsOk]

/-- C7: with `group_by_dimension` set, resolution raises `ValueError` when
the reference is not contained (by reference name) in `dimensions` —
including when `dimensions` is empty — and passes this containment check
when it is contained. -/
theorem C7_group_by_containment (p : PopulationSpec) (spec : MonitoringSpec)
    (exp : Option Experiment) (g : DimensionReference)
    (hg : p.group_by_dimension = some g) :
    ((g ∉ p.dimensions) →
      p.resolve spec exp = .error (.valueError (groupByMsg g)))
    ∧ ((g ∈ p.dimensions) → p.groupByCheck = .ok ()) := by
  constructor
  · intro hnot
    simp [PopulationSpec.resolve, PopulationSpec.groupByCheck, hg, hnot]
  · intro hmem
    simp [PopulationSpec.groupByCheck, hg, hmem]

/-- C7 witness: `group_by_dimension = "os"` with `dimensions = []` fails
resolution with the containment `ValueError`; with `dimensions = ["os"]`
the containment check passes. -/
theorem C7_witness :
    (exPopBad.resolve {} none
        = .error (.valueError (groupByMsg ⟨"os"⟩)))
      ∧ (exPopGood.groupByCheck = .ok ()) :=
  ⟨(C7_group_by_containment exPopBad {} none ⟨"os"⟩ rfl).1 (by decide),
    (C7_group_by_containment exPopGood {} none ⟨"os"⟩ rfl).2 (by decide)⟩

/-- C8: when a `PopulationSpec` with `branches` unset resolves
successfully, the configuration's branches are the experiment's branch
slugs exactly when an experiment is supplied, the spec's `boolean_pref` is
unset, and the experiment is not a rollout; in every other case (no
experiment, `boolean_pref` set, or rollout experiment) they are `[]`. -/
theorem C8_branches_default (p : PopulationSpec) (spec : MonitoringSpec)
    (exp : Option Experiment) (cfg : PopulationConfiguration)
    (hbr : p.branches = none) (h : p.resolve spec exp = .ok cfg) :
    (∀ e, exp = some e → p.boolean_pref = none → e.is_rollout = false →
      cfg.branches = e.branches.map Branch.slug)
    ∧ ((exp = none ∨ p.boolean_pref ≠ none
        ∨ (∃ e, exp = some e ∧ e.is_rollout = true)) → cfg.branches = []) := by
  have hb := (PopulationSpec.resolve_ok_fields p spec exp cfg h).1
  rw [hb]
  unfold PopulationSpec.resolvedBranches
  rw [hbr]
  constructor
  · intro e he hbp hro
    subst he
    simp [hbp, hro]
  · intro hcase
    rcases hcase with rfl | hbp | ⟨e, rfl, hro⟩
    · rfl
    · cases hexp : exp with
      | none => rfl
      | some e => simp [hbp]
    · simp [hro]

/-- C8 witness: the empty population spec against a two-branch non-rollout
experiment resolves with branches `["control", "treatment"]`. -/
theorem C8_witness :
    (PopulationSpec.resolve {} {} (some exExperiment) = .ok exPopCfg)
      ∧ exPopCfg.branches = exExperiment.branches.map Branch.slug :=
  ⟨by decide,
    (C8_branches_default {} {} (some exExperiment) exPopCfg rfl
      (by decide)).1 exExperiment rfl rfl rfl⟩

/-- C10: `PopulationSpec.merge` keeps `self`'s `branches` whenever they
are not `None`, taking `other`'s only when `self`'s are `None` — the
earlier layer wins — while the remaining scalar fields take `other`'s
value whenever it is truthy (inverted precedence). -/
theorem C10_population_merge_precedence (A B : PopulationSpec) :
    ((A.branches ≠ none → (A.merge B).branches = A.branches)
      ∧ (A.branches = none → (A.merge B).branches = B.branches))
    ∧ ((B.data_source ≠ none → (A.merge B).data_source = B.data_source)
      ∧ (B.data_source = none → (A.merge B).data_source = A.data_source))
    ∧ (((∃ s, B.boolean_pref = some s ∧ s ≠ "") →
          (A.merge B).boolean_pref = B.boolean_pref)
      ∧ ((B.boolean_pref = none ∨ B.boolean_pref = some "") →
          (A.merge B).boolean_pref = A.boolean_pref))
    ∧ ((B.channel ≠ none → (A.merge B).channel = B.channel)
      ∧ (B.channel = none → (A.merge B).channel = A.channel))
    ∧ ((B.group_by_dimension ≠ none →
          (A.merge B).group_by_dimension = B.group_by_dimension)
      ∧ (B.group_by_dimension = none →
          (A.merge B).group_by_dimension = A.group_by_dimension))
    ∧ ((A.merge B).monitor_entire_population
        = (B.monitor_entire_population || A.monitor_entire_population))
    ∧ ((A.merge B).dimensions = A.dimensions ++ B.dimensions) := by
  unfold PopulationSpec.merge
  refine ⟨⟨?_, ?_⟩, ⟨?_, ?_⟩, ⟨?_, ?_⟩, ⟨?_, ?_⟩, ⟨?_, ?_⟩, rfl, rfl⟩
  · intro h
    cases hA : A.branches with
    | none => exact absurd hA h
    | some bs => simp [hA]
  · intro h
    simp [h]
  · intro h
    cases hB : B.data_source with
    | none => exact absurd hB h
    | some r => simp [hB, pyOrOpt]
  · intro h
    simp [h, pyOrOpt]
  · rintro ⟨s, hB, hs⟩
    simp [hB, pyOrStr, hs]
  · rintro (h | h) <;> simp [h, pyOrStr]
  · intro h
    cases hB : B.channel with
    | none => exact absurd hB h
    | some c => simp [hB, pyOrOpt]
  · intro h
    simp [h, pyOrOpt]
  · intro h
    cases hB : B.group_by_dimension with
    | none => exact absurd hB h
    | some gd => simp [hB, pyOrOpt]
  · intro h
    simp [h, pyOrOpt]

/-- C10 witness: the precedence at concrete layers — explicit branches in
the earlier layer survive a merge, an unset `branches` takes the later
layer's, and the scalar fields follow the later-if-truthy rule. -/
theorem C10_witness :
    ((exPopA10.merge exPopB10).branches = exPopA10.branches)
      ∧ ((exPopC10.merge exPopA10).branches = exPopA10.branches)
      ∧ ((exPopA10.merge exPopB10).channel = exPopA10.channel)
      ∧ ((exPopC10.merge exPopA10).channel = exPopA10.channel)
      ∧ ((exPopC10.merge exPopA10).boolean_pref = exPopA10.boolean_pref) :=
  ⟨(C10_population_merge_precedence exPopA10 exPopB10).1.1 (by decide),
    (C10_population_merge_precedence exPopC10 exPopA10).1.2 (by decide),
    (C10_population_merge_precedence exPopA10 exPopB10).2.2.2.1.2 (by decide),
    (C10_population_merge_precedence exPopC10 exPopA10).2.2.2.1.1 (by decide),
    (C10_population_merge_precedence exPopC10 exPopA10).2.2.1.1
      ⟨"p", by decide, by decide⟩⟩

end Opmon
